import Mathlib

/-!
Verification of the module/crate resolution and dual-output orchestration
engine of the protobuf Rust code generator
(src/google/protobuf/compiler/rust/generator.cc).

The embedding models the file-level orchestration pass:
  - the data model (file descriptors with message/enum lists and
    public/plain dependency edges),
  - EmitPublicImportsForDepFile / EmitPublicImports (the public-import
    worklist traversal, lines 44-91),
  - DeclareSubmodulesForNonPrimarySrcs (lines 95-115),
  - RustGenerator::Generate (lines 119-245), producing a bindings event
    stream and, in cpp kernel mode, a thunks (shim) event stream.

External collaborators that are not part of this source file
(Options::Parse, GetImportPathToCrateNameMap, the naming resolver
GetRsFile/GetThunkCcFile/GetHeaderFile/RustInternalModuleName/RsTypePath,
RelativePath::Relative, IsKnownFeatureProto, the per-type emitters
GenerateRs/GenerateThunksCc/GenerateEnumDefinition, and the crate-name
lookup GetCrateName) are modelled from the spec as abstract inputs,
function parameters, or opaque emission events; each such definition is
marked in its doc comment.
-/

namespace RustGen

/-- Kernel mode selector of the generator options: native-interop (cpp)
vs pure-target (upb). Modelled from the spec: the options object carries
a kernel-mode selector consumed by the orchestrator via is_cpp(). -/
inductive Kernel where
  | cpp : Kernel
  | upb : Kernel
deriving DecidableEq

/-- Modelled from the spec: the parsed options object (Options::Parse and
the option grammar are external). Only the two fields the orchestrator
reads are modelled: the kernel-mode selector and the feature-stripping
flag strip_nonfunctional_codegen. -/
structure Options where
  kernel : Kernel
  strip_nonfunctional_codegen : Bool
deriving DecidableEq

/-- ctx.is_cpp(): whether the kernel mode is the native-interop (cpp) one. -/
def Options.is_cpp (o : Options) : Bool :=
  match o.kernel with
  | Kernel.cpp => true
  | Kernel.upb => false

/-- A schema file descriptor: its qualified path (name), its message and
enum full names in declaration order, its plain dependency edges
(dependency(i), all imports, in order) and its public dependency edges
(public_dependency(i), the publicly imported subset, in order), both as
file names resolved against the descriptor pool. -/
structure FileDescriptor where
  name : String
  messageTypes : List String
  enumTypes : List String
  dependencies : List String
  publicDependencies : List String
deriving DecidableEq

/-- The descriptor pool: the read-only set of all file descriptors, used
to resolve dependency edges (C++ holds direct pointers; the embedding
resolves by qualified path, which is unique per pool). -/
structure FilePool where
  files : List FileDescriptor

/-- Resolve a file name in the pool. -/
def FilePool.find (pool : FilePool) (n : String) : Option FileDescriptor :=
  pool.files.find? (fun f => f.name == n)

/-- f->public_dependency(0..count): the file descriptors publicly
imported by f, in declaration order. -/
def publicDeps (pool : FilePool) (f : FileDescriptor) : List FileDescriptor :=
  f.publicDependencies.filterMap pool.find

/-- One emission event of either output stream. Text formatting is
abstracted: each Emit constructor stands for one emitted statement or
one invocation of an external per-type emitter.
  - pubUse p: the forwarding declaration text, pub use p; (generator.cc
    lines 49-62).
  - submod path modName: the path-attributed submodule inclusion
    directive (lines 106-109).
  - useStar modName: the wildcard re-export pub use modName::*
    (lines 111-112).
  - includeHeader h: one include line of the thunks stream preamble
    (lines 182-207).
  - thunkMarker t: the one-line marker comment naming type t in the
    thunks stream (lines 221-223 and 237-239).
  - msgBinding / msgThunks / enumBinding: opaque events standing for the
    external per-type emitters GenerateRs, GenerateThunksCc and
    GenerateEnumDefinition (out of scope per the spec). -/
inductive Emit where
  | pubUse : String → Emit
  | submod : String → String → Emit
  | useStar : String → Emit
  | includeHeader : String → Emit
  | thunkMarker : String → Emit
  | msgBinding : String → Emit
  | msgThunks : String → Emit
  | enumBinding : String → Emit
deriving DecidableEq

/-- Modelled from the spec: the external naming and path resolvers that
generator.cc calls but that live in other translation units. Each field
is a deterministic pure function, as the spec requires:
  - getRsFile: GetRsFile, the generated-module path of a file;
  - getThunkCcFile: GetThunkCcFile, the thunks output path;
  - getHeaderFile: GetHeaderFile, the native (C++) header of a file;
  - rustInternalModuleName: RustInternalModuleName, the submodule
    identifier of a non-primary file, derived from its path;
  - relative: RelativePath(a).Relative(RelativePath(b));
  - rsTypePath: RsTypePath for a type of an out-of-unit file, the
    external crate identifier joined with the qualified type path;
  - isKnownFeatureProto: IsKnownFeatureProto, the feature-only schema
    file predicate used by the feature-stripping option. -/
structure Externals where
  getRsFile : String → String
  getThunkCcFile : String → String
  getHeaderFile : String → String
  rustInternalModuleName : String → String
  relative : String → String → String
  rsTypePath : String → String → String
  isKnownFeatureProto : String → Bool

/-- Modelled from the spec: GetCrateName resolves the external crate
identifier of a dependency file through the import-path-to-crate-name
mapping; a lookup miss is a fatal generation error (LookupError), never
a silent default. The mapping is an association list from import path
to crate identifier. -/
def getCrateName (map : List (String × String)) (name : String) :
    Except String String :=
  match map.lookup name with
  | some crate => Except.ok crate
  | none => Except.error ("Path " ++ name ++ " not found in crate mapping.")

/-- The per-dependency block of forwarding declarations: three pub use
statements per message (canonical, View, Mut) and one per enum, in
declaration order, each path qualified by the dependency's external
crate identifier (generator.cc lines 46-63). -/
def depFileBlock (ext : Externals) (crateName : String)
    (dep : FileDescriptor) : List Emit :=
  (dep.messageTypes.flatMap (fun m =>
    [Emit.pubUse (ext.rsTypePath crateName m),
     Emit.pubUse (ext.rsTypePath crateName m ++ "View"),
     Emit.pubUse (ext.rsTypePath crateName m ++ "Mut")])) ++
  dep.enumTypes.map (fun e => Emit.pubUse (ext.rsTypePath crateName e))

/-- EmitPublicImportsForDepFile (generator.cc lines 44-64): resolve the
dependency's crate name, then emit the forwarding-declaration block.
The crate-name lookup miss is the fatal LookupError of the spec. -/
def emitPublicImportsForDepFile (map : List (String × String))
    (ext : Externals) (dep : FileDescriptor) : Except String (List Emit) :=
  match getCrateName map dep.name with
  | Except.error e => Except.error e
  | Except.ok crateName => Except.ok (depFileBlock ext crateName dep)

/-- is_file_in_current_crate: membership of a file in the current
compilation unit (the files returned by ListParsedFiles). Modelled from
the spec: CrateMembership.IsInCurrentUnit; the C++ compares descriptor
pointers, the embedding compares the unique qualified paths. -/
def isFileInCurrentCrate (files : List FileDescriptor)
    (f : FileDescriptor) : Bool :=
  files.any (fun g => g.name == f.name)

/-- EmitPublicImports (generator.cc lines 76-91): the worklist traversal.
The C++ loop pops the back of files_to_visit, emits the forwarding block
when the popped file is out of the current crate, and pushes all of its
public dependencies; it keeps NO visited set. The embedding is fuel
indexed because the C++ loop need not terminate on a cyclic graph:
none models fuel exhaustion (the loop still running), some (.error e)
models the fatal crate-mapping lookup abort, and some (.ok (vs, out))
returns the visit order vs (the sequence of files popped, recorded for
specification purposes) together with the emitted event sequence out.
The head of the stack list is the back of the C++ vector, so pushing
public_dependency(0..n) makes the last one the next file popped. -/
def emitPublicImportsLoop (pool : FilePool)
    (inCrate : FileDescriptor → Bool) (map : List (String × String))
    (ext : Externals) :
    Nat → List FileDescriptor →
    Option (Except String (List FileDescriptor × List Emit))
  | _, [] => some (Except.ok ([], []))
  | 0, _ :: _ => none
  | Nat.succ fuel, f :: rest =>
    match (if inCrate f then Except.ok []
           else emitPublicImportsForDepFile map ext f) with
    | Except.error e => some (Except.error e)
    | Except.ok blk =>
      match emitPublicImportsLoop pool inCrate map ext fuel
          ((publicDeps pool f).reverse ++ rest) with
      | none => none
      | some (Except.error e) => some (Except.error e)
      | some (Except.ok (vs, out)) => some (Except.ok (f :: vs, blk ++ out))

/-- DeclareSubmodulesForNonPrimarySrcs (generator.cc lines 95-115): for
each non-primary source, one path-attributed submodule inclusion
directive using the relative path from the primary file's generated
module path to the non-primary file's, followed by one wildcard
re-export of the submodule. No uniqueness check is performed on the
submodule identifiers. -/
def declareSubmodulesForNonPrimarySrcs (ext : Externals)
    (primaryFile : FileDescriptor)
    (nonPrimarySrcs : List FileDescriptor) : List Emit :=
  let primaryFilePath := ext.getRsFile primaryFile.name
  nonPrimarySrcs.flatMap (fun np =>
    let nonPrimaryFilePath := ext.getRsFile np.name
    let relativeModPath := ext.relative primaryFilePath nonPrimaryFilePath
    [Emit.submod relativeModPath (ext.rustInternalModuleName np.name),
     Emit.useStar (ext.rustInternalModuleName np.name)])

/-- The thunks-stream preamble of cpp kernel mode (generator.cc lines
182-207): the file's own native header, then the native header of each
plain dependency in order - skipping a dependency recognized as a known
feature proto when strip_nonfunctional_codegen is set - then the fixed
native-runtime support headers. -/
def thunksHeaderBlock (opts : Options) (ext : Externals)
    (file : FileDescriptor) : List Emit :=
  Emit.includeHeader (ext.getHeaderFile file.name) ::
  ((file.dependencies.filter (fun d =>
      !(opts.strip_nonfunctional_codegen && ext.isKnownFeatureProto d))).map
    (fun d => Emit.includeHeader (ext.getHeaderFile d))) ++
  [Emit.includeHeader "google/protobuf/map.h",
   Emit.includeHeader "google/protobuf/repeated_field.h",
   Emit.includeHeader "google/protobuf/repeated_ptr_field.h",
   Emit.includeHeader "rust/cpp_kernel/serialized_data.h",
   Emit.includeHeader "rust/cpp_kernel/strings.h"]

/-- The inputs of one RustGenerator::Generate invocation.
optsResult models the result of Options::Parse(parameter) and
crateMapResult the result of GetImportPathToCrateNameMap - both
external calls whose StatusOr results the orchestrator inspects
(generator.cc lines 123-137); filesInCrate is
generator_context->ListParsedFiles (the compilation unit, first element
primary); pool is the descriptor pool; ext the external resolvers. -/
structure GenInputs where
  optsResult : Except String Options
  filesInCrate : List FileDescriptor
  crateMapResult : Except String (List (String × String))
  pool : FilePool
  ext : Externals

/-- The committed outputs of a successful pass: the bindings output path
and event stream, and - in cpp kernel mode only - the thunks output
path and event stream. -/
structure GenSuccess where
  rsFile : String
  rsEvents : List Emit
  thunksFile : Option String
  thunksEvents : List Emit
deriving DecidableEq

/-- Outcome of one Generate invocation.
  - ok: the pass completed; outputs are committed.
  - fail e: Generate returned false with *error = e (the bool/error
    interface to the driver); no output was opened.
  - abort e: the pass died in an external lookup, modelled from the
    spec's fatal LookupError (the C++ lookup is a process-fatal log in a
    translation unit outside this file); nothing is committed and
    nothing is returned through the bool/error interface.
  - fuelExhausted: the traversal loop was still running when the fuel
    bound ran out (the worklist loop of EmitPublicImports has no cycle
    guard and need not terminate). -/
inductive GenResult where
  | ok : GenSuccess → GenResult
  | fail : String → GenResult
  | abort : String → GenResult
  | fuelExhausted : GenResult
deriving DecidableEq

/-- RustGenerator::Generate (generator.cc lines 119-245).
Faithful control flow: parse options (return false with the parse error
on failure, lines 123-127); load the crate mapping (return false with
its error on failure, lines 132-137); open the bindings output at
GetRsFile (line 150); if the file is the unit's primary file, declare
submodules for the non-primary sources (lines 171-174); in cpp kernel
mode open the thunks output and stamp its header block (lines 176-208);
run EmitPublicImports (line 210); then per message emit the binding and,
in cpp mode, the thunk marker plus thunk body, and per enum the binding
and, in cpp mode, the thunk marker (lines 212-242); return true.
The module-nesting vector (lines 142-146) and the printer variable
shorthands (lines 156-165) only parametrize the external naming
resolver and text substitution and are not modelled. The C++ indexes
files_in_current_crate[0] unconditionally; an empty unit is outside the
driver contract and is mapped to abort. -/
def Generate (inp : GenInputs) (file : FileDescriptor) (fuel : Nat) :
    GenResult :=
  match inp.optsResult with
  | Except.error e => GenResult.fail e
  | Except.ok opts =>
    match inp.crateMapResult with
    | Except.error e => GenResult.fail e
    | Except.ok map =>
      match inp.filesInCrate with
      | [] => GenResult.abort "files_in_current_crate is empty"
      | primary :: nonPrimarySrcs =>
        match emitPublicImportsLoop inp.pool
            (isFileInCurrentCrate (primary :: nonPrimarySrcs)) map inp.ext
            fuel [file] with
        | none => GenResult.fuelExhausted
        | some (Except.error e) => GenResult.abort e
        | some (Except.ok (_, publicImports)) =>
          GenResult.ok
            { rsFile := inp.ext.getRsFile file.name
              rsEvents :=
                (if file.name = primary.name then
                  declareSubmodulesForNonPrimarySrcs inp.ext primary
                    nonPrimarySrcs
                 else []) ++
                publicImports ++
                file.messageTypes.map Emit.msgBinding ++
                file.enumTypes.map Emit.enumBinding
              thunksFile :=
                if opts.is_cpp then
                  some (inp.ext.getThunkCcFile file.name)
                else none
              thunksEvents :=
                (if opts.is_cpp then thunksHeaderBlock opts inp.ext file
                 else []) ++
                (if opts.is_cpp then
                  file.messageTypes.flatMap (fun m =>
                    [Emit.thunkMarker m, Emit.msgThunks m])
                 else []) ++
                (if opts.is_cpp then
                  file.enumTypes.map Emit.thunkMarker
                 else []) }

/-- Public reachability: g is reachable from f through a chain of public
dependency edges (zero or more). -/
inductive PubReach (pool : FilePool) : FileDescriptor → FileDescriptor → Prop
  | refl (f : FileDescriptor) : PubReach pool f f
  | step {f g h : FileDescriptor} :
      g ∈ publicDeps pool f → PubReach pool g h → PubReach pool f h

/-- The forwarding block a dependency file contributes, resolved through
the crate mapping; the empty list when the mapping has no entry (that
case aborts the traversal and never reaches the output). -/
def depBlockOrNothing (map : List (String × String)) (ext : Externals)
    (f : FileDescriptor) : List Emit :=
  match map.lookup f.name with
  | none => []
  | some crate => depFileBlock ext crate f

/-- Projection: the visit order of a completed traversal. -/
def loopVisits
    (r : Option (Except String (List FileDescriptor × List Emit))) :
    List FileDescriptor :=
  match r with
  | some (Except.ok (vs, _)) => vs
  | _ => []

/-- Projection: the emitted events of a completed traversal. -/
def loopOutput
    (r : Option (Except String (List FileDescriptor × List Emit))) :
    List Emit :=
  match r with
  | some (Except.ok (_, out)) => out
  | _ => []

/-- Did Generate complete and commit outputs? -/
def GenResult.isOk : GenResult → Bool
  | GenResult.ok _ => true
  | _ => false

/-- Did Generate signal failure through the bool/error-string interface
(return false with *error set)? -/
def GenResult.isFail : GenResult → Bool
  | GenResult.fail _ => true
  | _ => false

/-- Projection: the bindings event stream of a completed pass. -/
def GenResult.rsEventsD : GenResult → List Emit
  | GenResult.ok s => s.rsEvents
  | _ => []

/-- Projection: the thunks event stream of a completed pass. -/
def GenResult.thunksEventsD : GenResult → List Emit
  | GenResult.ok s => s.thunksEvents
  | _ => []

/-- Projection: the opened thunks output path of a completed pass. -/
def GenResult.thunksFileD : GenResult → Option String
  | GenResult.ok s => s.thunksFile
  | _ => none

/-- Is the event a submodule inclusion directive or its wildcard
re-export? -/
def isSubmoduleDecl : Emit → Bool
  | Emit.submod _ _ => true
  | Emit.useStar _ => true
  | _ => false

/-- Is the event a submodule inclusion directive with identifier n? -/
def isSubmodNamed (n : String) : Emit → Bool
  | Emit.submod _ m => m == n
  | _ => false

/-- Count the pub use statements of exactly the path p. -/
def countPubUse (p : String) (l : List Emit) : Nat :=
  l.countP (fun e =>
    match e with
    | Emit.pubUse q => q == p
    | _ => false)

/-- Is the event a per-type thunk marker comment? -/
def isThunkMarker : Emit → Bool
  | Emit.thunkMarker _ => true
  | _ => false



/-! ## Concrete fixtures (used by counterexamples and witnesses) -/

/-- Fixture: pure-target (upb) options. -/
def upbOpts : Options :=
  { kernel := Kernel.upb, strip_nonfunctional_codegen := false }

/-- Fixture: native-interop (cpp) options with feature stripping on. -/
def cppStripOpts : Options :=
  { kernel := Kernel.cpp, strip_nonfunctional_codegen := true }

/-- Fixture: a concrete instantiation of the external resolvers. -/
def testExt : Externals :=
  { getRsFile := fun n => n ++ ".rs"
    getThunkCcFile := fun n => n ++ ".thunks.cc"
    getHeaderFile := fun n => n ++ ".pb.h"
    rustInternalModuleName := fun n => n ++ "_mod"
    relative := fun a b => a ++ "/" ++ b
    rsTypePath := fun crate ty => crate ++ "::" ++ ty
    isKnownFeatureProto := fun n => n == "features.proto" }

/-- Fixture: external resolvers whose submodule-identifier function maps
every file to the same identifier m (a collision). -/
def collideExt : Externals :=
  { getRsFile := fun n => n ++ ".rs"
    getThunkCcFile := fun n => n ++ ".thunks.cc"
    getHeaderFile := fun n => n ++ ".pb.h"
    rustInternalModuleName := fun _ => "m"
    relative := fun a b => a ++ "/" ++ b
    rsTypePath := fun crate ty => crate ++ "::" ++ ty
    isKnownFeatureProto := fun n => n == "features.proto" }

/-- Fixture (diamond, C1): out-of-unit file defining one message M. -/
def fE : FileDescriptor :=
  { name := "e.proto", messageTypes := ["M"], enumTypes := [],
    dependencies := [], publicDependencies := [] }

/-- Fixture (diamond, C1): in-unit file publicly importing e.proto. -/
def fD1 : FileDescriptor :=
  { name := "d1.proto", messageTypes := [], enumTypes := [],
    dependencies := ["e.proto"], publicDependencies := ["e.proto"] }

/-- Fixture (diamond, C1): second in-unit file publicly importing
e.proto. -/
def fD2 : FileDescriptor :=
  { name := "d2.proto", messageTypes := [], enumTypes := [],
    dependencies := ["e.proto"], publicDependencies := ["e.proto"] }

/-- Fixture (diamond, C1): the file under generation, publicly importing
d1.proto and d2.proto, so e.proto is reachable along two distinct
public chains. -/
def fA : FileDescriptor :=
  { name := "a.proto", messageTypes := [], enumTypes := [],
    dependencies := ["d1.proto", "d2.proto"],
    publicDependencies := ["d1.proto", "d2.proto"] }

def c1Pool : FilePool := { files := [fA, fD1, fD2, fE] }

def c1Unit : List FileDescriptor := [fA, fD1, fD2]

def c1Map : List (String × String) := [("e.proto", "ext")]

def c1Inputs : GenInputs :=
  { optsResult := Except.ok upbOpts, filesInCrate := c1Unit,
    crateMapResult := Except.ok c1Map, pool := c1Pool, ext := testExt }

/-- Fixture (cycle, C2): a file whose only public dependency is itself,
the smallest public-import cycle. -/
def cycFile : FileDescriptor :=
  { name := "x.proto", messageTypes := [], enumTypes := [],
    dependencies := ["x.proto"], publicDependencies := ["x.proto"] }

def cycPool : FilePool := { files := [cycFile] }

/-- Fixture (diamond, C2): bottom of the diamond, out of unit. -/
def diamondBottom : FileDescriptor :=
  { name := "z.proto", messageTypes := ["Z"], enumTypes := [],
    dependencies := [], publicDependencies := [] }

def diamondLeft : FileDescriptor :=
  { name := "q.proto", messageTypes := [], enumTypes := [],
    dependencies := ["z.proto"], publicDependencies := ["z.proto"] }

def diamondRight : FileDescriptor :=
  { name := "r.proto", messageTypes := [], enumTypes := [],
    dependencies := ["z.proto"], publicDependencies := ["z.proto"] }

def diamondTop : FileDescriptor :=
  { name := "p.proto", messageTypes := [], enumTypes := [],
    dependencies := ["q.proto", "r.proto"],
    publicDependencies := ["q.proto", "r.proto"] }

def diamondPool : FilePool :=
  { files := [diamondTop, diamondLeft, diamondRight, diamondBottom] }

def diamondUnit : List FileDescriptor :=
  [diamondTop, diamondLeft, diamondRight]

def diamondMap : List (String × String) := [("z.proto", "zext")]

/-- Fixture (chain): out-of-unit file defining one message and one enum,
reached through a chain of two public imports. -/
def fX : FileDescriptor :=
  { name := "x2.proto", messageTypes := ["XM"], enumTypes := ["XE"],
    dependencies := [], publicDependencies := [] }

def fMid : FileDescriptor :=
  { name := "mid.proto", messageTypes := [], enumTypes := [],
    dependencies := ["x2.proto"], publicDependencies := ["x2.proto"] }

def fTop : FileDescriptor :=
  { name := "top.proto", messageTypes := [], enumTypes := [],
    dependencies := ["mid.proto"], publicDependencies := ["mid.proto"] }

def chainPool : FilePool := { files := [fTop, fMid, fX] }

def chainUnit : List FileDescriptor := [fTop, fMid]

def chainMap : List (String × String) := [("x2.proto", "xcrate")]

/-- Fixture (submodules, C4): primary file of a two-file unit. -/
def fP : FileDescriptor :=
  { name := "p2.proto", messageTypes := ["PM"], enumTypes := [],
    dependencies := [], publicDependencies := [] }

/-- Fixture (submodules, C4): the non-primary file. -/
def fB : FileDescriptor :=
  { name := "b.proto", messageTypes := [], enumTypes := [],
    dependencies := [], publicDependencies := [] }

def c4Unit : List FileDescriptor := [fP, fB]

def c4Inputs : GenInputs :=
  { optsResult := Except.ok upbOpts, filesInCrate := c4Unit,
    crateMapResult := Except.ok [], pool := { files := c4Unit },
    ext := testExt }

/-- Fixture (lookup miss, C5 witness): in-unit file publicly importing
an out-of-unit file that has no crate-mapping entry. -/
def fNeedy : FileDescriptor :=
  { name := "needy.proto", messageTypes := [], enumTypes := [],
    dependencies := ["miss.proto"], publicDependencies := ["miss.proto"] }

def fMissing : FileDescriptor :=
  { name := "miss.proto", messageTypes := ["MM"], enumTypes := [],
    dependencies := [], publicDependencies := [] }

def c5Inputs : GenInputs :=
  { optsResult := Except.ok upbOpts, filesInCrate := [fNeedy],
    crateMapResult := Except.ok [],
    pool := { files := [fNeedy, fMissing] }, ext := testExt }

/-- Fixture (lookup miss, C5 counterexample): a second unmapped
out-of-unit public import. -/
def fNeedy2 : FileDescriptor :=
  { name := "needy2.proto", messageTypes := [], enumTypes := [],
    dependencies := ["w.proto"], publicDependencies := ["w.proto"] }

def fW : FileDescriptor :=
  { name := "w.proto", messageTypes := ["WM"], enumTypes := [],
    dependencies := [], publicDependencies := [] }

def c5bInputs : GenInputs :=
  { optsResult := Except.ok upbOpts, filesInCrate := [fNeedy2],
    crateMapResult := Except.ok [],
    pool := { files := [fNeedy2, fW] }, ext := testExt }

/-- Fixture (cpp kernel, C6): a file with two messages, one enum, one
ordinary dependency and one feature-only dependency. -/
def fCpp : FileDescriptor :=
  { name := "c.proto", messageTypes := ["CM1", "CM2"],
    enumTypes := ["CE"],
    dependencies := ["dep1.proto", "features.proto"],
    publicDependencies := [] }

def c6Inputs : GenInputs :=
  { optsResult := Except.ok cppStripOpts, filesInCrate := [fCpp],
    crateMapResult := Except.ok [], pool := { files := [fCpp] },
    ext := testExt }

/-- Fixture (bad options, C8): an invocation whose options string does
not parse. -/
def badOptsInputs : GenInputs :=
  { optsResult := Except.error "bad rust generator option: qqq",
    filesInCrate := [fP], crateMapResult := Except.ok [],
    pool := { files := [fP] }, ext := testExt }

/-- Fixture (identifier collision, C9): a three-file unit whose two
non-primary files resolve to the same submodule identifier. -/
def fPrim : FileDescriptor :=
  { name := "prim.proto", messageTypes := [], enumTypes := [],
    dependencies := [], publicDependencies := [] }

def fN1 : FileDescriptor :=
  { name := "n1.proto", messageTypes := [], enumTypes := [],
    dependencies := [], publicDependencies := [] }

def fN2 : FileDescriptor :=
  { name := "n2.proto", messageTypes := [], enumTypes := [],
    dependencies := [], publicDependencies := [] }

def c9Unit : List FileDescriptor := [fPrim, fN1, fN2]

def c9Inputs : GenInputs :=
  { optsResult := Except.ok upbOpts, filesInCrate := c9Unit,
    crateMapResult := Except.ok [], pool := { files := c9Unit },
    ext := collideExt }

/-- Fixture (C10 counterexample): valid options and a loaded (empty)
crate mapping, with an unmapped out-of-unit public import reached by
the traversal. -/
def fNeedy3 : FileDescriptor :=
  { name := "needy3.proto", messageTypes := [], enumTypes := [],
    dependencies := ["v.proto"], publicDependencies := ["v.proto"] }

def fV : FileDescriptor :=
  { name := "v.proto", messageTypes := ["VM"], enumTypes := [],
    dependencies := [], publicDependencies := [] }

def c10Inputs : GenInputs :=
  { optsResult := Except.ok upbOpts, filesInCrate := [fNeedy3],
    crateMapResult := Except.ok [],
    pool := { files := [fNeedy3, fV] }, ext := testExt }

/-! ## Lemmas about Generate -/

/-- Unfolding of a completed Generate pass: with valid options, a loaded
crate mapping, a nonempty compilation unit and a completed traversal,
the pass commits exactly the assembled streams. -/
lemma generate_eq_ok (inp : GenInputs) (file : FileDescriptor) (fuel : Nat)
    (opts : Options) (map : List (String × String))
    (primary : FileDescriptor) (rest vs : List FileDescriptor)
    (pub : List Emit)
    (h1 : inp.optsResult = Except.ok opts)
    (h2 : inp.crateMapResult = Except.ok map)
    (h3 : inp.filesInCrate = primary :: rest)
    (hloop : emitPublicImportsLoop inp.pool
        (isFileInCurrentCrate (primary :: rest)) map inp.ext fuel [file] =
      some (Except.ok (vs, pub))) :
    Generate inp file fuel = GenResult.ok
      { rsFile := inp.ext.getRsFile file.name
        rsEvents :=
          (if file.name = primary.name then
            declareSubmodulesForNonPrimarySrcs inp.ext primary rest
           else []) ++ pub ++
          file.messageTypes.map Emit.msgBinding ++
          file.enumTypes.map Emit.enumBinding
        thunksFile :=
          if opts.is_cpp then some (inp.ext.getThunkCcFile file.name)
          else none
        thunksEvents :=
          (if opts.is_cpp then thunksHeaderBlock opts inp.ext file
           else []) ++
          (if opts.is_cpp then
            file.messageTypes.flatMap (fun m =>
              [Emit.thunkMarker m, Emit.msgThunks m])
           else []) ++
          (if opts.is_cpp then file.enumTypes.map Emit.thunkMarker
           else []) } := by
  unfold Generate
  simp only [h1, h2, h3, hloop]

/-- A pass that committed outputs must have completed its traversal. -/
lemma generate_isOk_loop (inp : GenInputs) (file : FileDescriptor)
    (fuel : Nat) (opts : Options) (map : List (String × String))
    (primary : FileDescriptor) (rest : List FileDescriptor)
    (h1 : inp.optsResult = Except.ok opts)
    (h2 : inp.crateMapResult = Except.ok map)
    (h3 : inp.filesInCrate = primary :: rest)
    (hok : (Generate inp file fuel).isOk = true) :
    ∃ vs pub, emitPublicImportsLoop inp.pool
        (isFileInCurrentCrate (primary :: rest)) map inp.ext fuel [file] =
      some (Except.ok (vs, pub)) := by
  rcases hloop : emitPublicImportsLoop inp.pool
      (isFileInCurrentCrate (primary :: rest)) map inp.ext fuel [file]
    with _ | r
  · exfalso
    unfold Generate at hok
    simp only [h1, h2, h3, hloop, GenResult.isOk] at hok
    exact Bool.noConfusion hok
  · rcases r with e | ⟨vs, pub⟩
    · exfalso
      unfold Generate at hok
      simp only [h1, h2, h3, hloop, GenResult.isOk] at hok
      exact Bool.noConfusion hok
    · exact ⟨vs, pub, rfl⟩

/-! ## Classification of emitted events -/

/-- A forwarding-declaration block contains only pub use statements,
never submodule declarations. -/
lemma depFileBlock_no_submod (ext : Externals) (crate : String)
    (dep : FileDescriptor) :
    ∀ e ∈ depFileBlock ext crate dep, isSubmoduleDecl e = false := by
  intro e he
  unfold depFileBlock at he
  rcases List.mem_append.mp he with hm | hn
  · obtain ⟨m, _, hmem⟩ := List.mem_flatMap.mp hm
    simp only [List.mem_cons, List.mem_singleton] at hmem
    rcases hmem with rfl | rfl | rfl | h
    · rfl
    · rfl
    · rfl
    · simp at h
  · obtain ⟨q, _, rfl⟩ := List.mem_map.mp hn
    rfl

/-- Same, resolved through the crate mapping. -/
lemma depBlockOrNothing_no_submod (map : List (String × String))
    (ext : Externals) (f : FileDescriptor) :
    ∀ e ∈ depBlockOrNothing map ext f, isSubmoduleDecl e = false := by
  intro e he
  unfold depBlockOrNothing at he
  rcases hlook : List.lookup f.name map with _ | crate
  · rw [hlook] at he
    simp at he
  · rw [hlook] at he
    exact depFileBlock_no_submod ext crate f e he

/-- Every event of a submodule-declaration block is a submodule
inclusion directive or a wildcard re-export. -/
lemma declare_all_submod (ext : Externals) (primary : FileDescriptor)
    (srcs : List FileDescriptor) :
    ∀ e ∈ declareSubmodulesForNonPrimarySrcs ext primary srcs,
      isSubmoduleDecl e = true := by
  intro e he
  simp only [declareSubmodulesForNonPrimarySrcs] at he
  obtain ⟨np, _, hmem⟩ := List.mem_flatMap.mp he
  simp only [List.mem_cons, List.mem_singleton] at hmem
  rcases hmem with rfl | rfl | h
  · rfl
  · rfl
  · simp at h

/-- One step of the submodule-declaration block. -/
lemma declare_cons (ext : Externals) (primary np : FileDescriptor)
    (tl : List FileDescriptor) :
    declareSubmodulesForNonPrimarySrcs ext primary (np :: tl) =
      Emit.submod
          (ext.relative (ext.getRsFile primary.name) (ext.getRsFile np.name))
          (ext.rustInternalModuleName np.name) ::
        Emit.useStar (ext.rustInternalModuleName np.name) ::
        declareSubmodulesForNonPrimarySrcs ext primary tl := rfl

/-- The submodule-declaration block contains one inclusion directive
with identifier n per non-primary source whose resolved submodule
identifier is n. -/
lemma countP_submodNamed_declare (ext : Externals)
    (primary : FileDescriptor) (n : String) :
    ∀ srcs : List FileDescriptor,
      (declareSubmodulesForNonPrimarySrcs ext primary srcs).countP
        (isSubmodNamed n) =
      srcs.countP (fun f => ext.rustInternalModuleName f.name == n) := by
  intro srcs
  induction srcs with
  | nil => rfl
  | cons np tl ih =>
    rw [declare_cons, List.countP_cons, List.countP_cons, List.countP_cons,
      ih]
    simp [isSubmodNamed]

/-- The thunks-stream preamble consists of include lines only, never
per-type markers. -/
lemma thunksHeaderBlock_no_marker (opts : Options) (ext : Externals)
    (file : FileDescriptor) :
    ∀ e ∈ thunksHeaderBlock opts ext file, isThunkMarker e = false := by
  intro e he
  unfold thunksHeaderBlock at he
  rcases List.mem_cons.mp he with rfl | he2
  · rfl
  · rcases List.mem_append.mp he2 with hmap | hfix
    · obtain ⟨d, _, rfl⟩ := List.mem_map.mp hmap
      rfl
    · simp only [List.mem_cons, List.mem_singleton] at hfix
      rcases hfix with rfl | rfl | rfl | rfl | rfl | h
      · rfl
      · rfl
      · rfl
      · rfl
      · rfl
      · simp at h

/-- The per-message thunk sequence filtered to markers is exactly one
marker per message, in order. -/
lemma filter_marker_msgs (l : List String) :
    ((l.flatMap (fun m => [Emit.thunkMarker m, Emit.msgThunks m])).filter
      isThunkMarker) = l.map Emit.thunkMarker := by
  induction l with
  | nil => rfl
  | cons m tl ih =>
    simp only [List.flatMap_cons, List.map_cons, List.filter_append,
      ← ih]
    rfl

/-! ## Lemmas about the public-import worklist traversal -/

/-- The empty worklist finishes immediately with no visits and no
output, for any fuel. -/
lemma loop_nil (pool : FilePool) (inCrate : FileDescriptor → Bool)
    (map : List (String × String)) (ext : Externals) (fuel : Nat) :
    emitPublicImportsLoop pool inCrate map ext fuel [] =
      some (Except.ok ([], [])) := by
  cases fuel <;> rfl

/-- Characterization of one successful step of the worklist loop. -/
lemma loop_cons_ok (pool : FilePool) (inCrate : FileDescriptor → Bool)
    (map : List (String × String)) (ext : Externals) (n : Nat)
    (f : FileDescriptor) (rest vs : List FileDescriptor) (out : List Emit) :
    emitPublicImportsLoop pool inCrate map ext (n + 1) (f :: rest) =
        some (Except.ok (vs, out)) ↔
      ∃ blk vs' out',
        (if inCrate f then Except.ok []
         else emitPublicImportsForDepFile map ext f) = Except.ok blk ∧
        emitPublicImportsLoop pool inCrate map ext n
            ((publicDeps pool f).reverse ++ rest) =
          some (Except.ok (vs', out')) ∧
        vs = f :: vs' ∧ out = blk ++ out' := by
  constructor
  · intro h
    rw [emitPublicImportsLoop] at h
    rcases hblk : (if inCrate f then Except.ok []
        else emitPublicImportsForDepFile map ext f) with e | blk
    · simp only [hblk] at h
      simp at h
    · simp only [hblk] at h
      rcases hrec : emitPublicImportsLoop pool inCrate map ext n
          ((publicDeps pool f).reverse ++ rest) with _ | r
      · simp only [hrec] at h
        simp at h
      · rcases r with e | ⟨vs', out'⟩
        · simp only [hrec] at h
          simp at h
        · simp only [hrec, Option.some.injEq, Except.ok.injEq,
            Prod.mk.injEq] at h
          exact ⟨blk, vs', out', rfl, rfl, h.1.symm, h.2.symm⟩
  · rintro ⟨blk, vs', out', hblk, hrec, rfl, rfl⟩
    rw [emitPublicImportsLoop]
    simp only [hblk, hrec]

/-- Every file in the worklist ends up in the visit order of a completed
traversal. -/
lemma loop_visits_superset (pool : FilePool)
    (inCrate : FileDescriptor → Bool) (map : List (String × String))
    (ext : Externals) :
    ∀ (fuel : Nat) (stack vs : List FileDescriptor) (out : List Emit),
      emitPublicImportsLoop pool inCrate map ext fuel stack =
        some (Except.ok (vs, out)) →
      ∀ s ∈ stack, s ∈ vs := by
  intro fuel
  induction fuel with
  | zero =>
    intro stack vs out h s hs
    cases stack with
    | nil => simp at hs
    | cons f rest => simp [emitPublicImportsLoop] at h
  | succ n ih =>
    intro stack vs out h s hs
    cases stack with
    | nil => simp at hs
    | cons f rest =>
      rw [loop_cons_ok] at h
      obtain ⟨blk, vs', out', _, hrec, hv, _⟩ := h
      subst hv
      rcases List.mem_cons.mp hs with hsf | hsr
      · exact List.mem_cons.mpr (Or.inl hsf)
      · exact List.mem_cons.mpr (Or.inr
          (ih _ vs' out' hrec s (List.mem_append_right _ hsr)))

/-- Every visited file is publicly reachable from some worklist entry. -/
lemma loop_visits_sound (pool : FilePool)
    (inCrate : FileDescriptor → Bool) (map : List (String × String))
    (ext : Externals) :
    ∀ (fuel : Nat) (stack vs : List FileDescriptor) (out : List Emit),
      emitPublicImportsLoop pool inCrate map ext fuel stack =
        some (Except.ok (vs, out)) →
      ∀ x ∈ vs, ∃ s ∈ stack, PubReach pool s x := by
  intro fuel
  induction fuel with
  | zero =>
    intro stack vs out h x hx
    cases stack with
    | nil =>
      rw [loop_nil] at h
      simp only [Option.some.injEq, Except.ok.injEq, Prod.mk.injEq] at h
      rw [← h.1] at hx
      simp at hx
    | cons f rest => simp [emitPublicImportsLoop] at h
  | succ n ih =>
    intro stack vs out h x hx
    cases stack with
    | nil =>
      rw [loop_nil] at h
      simp only [Option.some.injEq, Except.ok.injEq, Prod.mk.injEq] at h
      rw [← h.1] at hx
      simp at hx
    | cons f rest =>
      rw [loop_cons_ok] at h
      obtain ⟨blk, vs', out', _, hrec, hv, _⟩ := h
      subst hv
      rcases List.mem_cons.mp hx with rfl | hxv
      · exact ⟨x, List.mem_cons_self x rest, PubReach.refl x⟩
      · obtain ⟨s, hs, hreach⟩ := ih _ vs' out' hrec x hxv
        rcases List.mem_append.mp hs with hsd | hsr
        · exact ⟨f, List.mem_cons_self f rest,
            PubReach.step (List.mem_reverse.mp hsd) hreach⟩
        · exact ⟨s, List.mem_cons_of_mem f hsr, hreach⟩

/-- The visit order of a completed traversal is closed under public
dependency edges. -/
lemma loop_visits_closed (pool : FilePool)
    (inCrate : FileDescriptor → Bool) (map : List (String × String))
    (ext : Externals) :
    ∀ (fuel : Nat) (stack vs : List FileDescriptor) (out : List Emit),
      emitPublicImportsLoop pool inCrate map ext fuel stack =
        some (Except.ok (vs, out)) →
      ∀ x ∈ vs, ∀ d ∈ publicDeps pool x, d ∈ vs := by
  intro fuel
  induction fuel with
  | zero =>
    intro stack vs out h x hx
    cases stack with
    | nil =>
      rw [loop_nil] at h
      simp only [Option.some.injEq, Except.ok.injEq, Prod.mk.injEq] at h
      rw [← h.1] at hx
      simp at hx
    | cons f rest => simp [emitPublicImportsLoop] at h
  | succ n ih =>
    intro stack vs out h x hx d hd
    cases stack with
    | nil =>
      rw [loop_nil] at h
      simp only [Option.some.injEq, Except.ok.injEq, Prod.mk.injEq] at h
      rw [← h.1] at hx
      simp at hx
    | cons f rest =>
      rw [loop_cons_ok] at h
      obtain ⟨blk, vs', out', _, hrec, hv, _⟩ := h
      subst hv
      rcases List.mem_cons.mp hx with hxf | hxv
      · subst hxf
        refine List.mem_cons_of_mem x ?_
        exact loop_visits_superset pool inCrate map ext n _ vs' out' hrec d
          (List.mem_append_left _ (List.mem_reverse.mpr hd))
      · exact List.mem_cons_of_mem f (ih _ vs' out' hrec x hxv d hd)

/-- A publicly reachable file belongs to any dep-edge-closed list
containing the start file. -/
lemma reach_mem_of_closed (pool : FilePool) (vs : List FileDescriptor)
    (hclosed : ∀ x ∈ vs, ∀ d ∈ publicDeps pool x, d ∈ vs) :
    ∀ s g, PubReach pool s g → s ∈ vs → g ∈ vs := by
  intro s g hreach
  induction hreach with
  | refl f => exact fun h => h
  | step hedge _ ih => exact fun hs => ih (hclosed _ hs _ hedge)

/-- The output of a completed traversal is the concatenation, in visit
order, of the forwarding blocks of exactly the out-of-unit visited
files. -/
lemma loop_output_eq (pool : FilePool)
    (inCrate : FileDescriptor → Bool) (map : List (String × String))
    (ext : Externals) :
    ∀ (fuel : Nat) (stack vs : List FileDescriptor) (out : List Emit),
      emitPublicImportsLoop pool inCrate map ext fuel stack =
        some (Except.ok (vs, out)) →
      out = (vs.filter (fun f => !inCrate f)).flatMap
        (depBlockOrNothing map ext) := by
  intro fuel
  induction fuel with
  | zero =>
    intro stack vs out h
    cases stack with
    | nil =>
      rw [loop_nil] at h
      simp only [Option.some.injEq, Except.ok.injEq, Prod.mk.injEq] at h
      rw [← h.1, ← h.2]
      rfl
    | cons f rest => simp [emitPublicImportsLoop] at h
  | succ n ih =>
    intro stack vs out h
    cases stack with
    | nil =>
      rw [loop_nil] at h
      simp only [Option.some.injEq, Except.ok.injEq, Prod.mk.injEq] at h
      rw [← h.1, ← h.2]
      rfl
    | cons f rest =>
      rw [loop_cons_ok] at h
      obtain ⟨blk, vs', out', hblk, hrec, hv, ho⟩ := h
      subst hv
      subst ho
      rw [ih _ vs' out' hrec]
      by_cases hc : inCrate f = true
      · rw [if_pos hc] at hblk
        have hblk' : blk = [] := by
          simpa using hblk.symm
        subst hblk'
        simp [List.filter_cons, hc]
      · have hc' : inCrate f = false := by
          simpa using hc
        rw [if_neg hc] at hblk
        unfold emitPublicImportsForDepFile getCrateName at hblk
        rcases hlook : List.lookup f.name map with _ | crate
        · simp only [hlook] at hblk
          simp at hblk
        · simp only [hlook, Except.ok.injEq] at hblk
          have hdep : depBlockOrNothing map ext f = blk := by
            simp only [depBlockOrNothing, hlook]
            exact hblk
          simp [List.filter_cons, hc', hdep]

/-- For the traversal started at the file under generation: the visit
order contains a file iff it is publicly reachable from that file. -/
lemma loop_visits_iff_reach (pool : FilePool)
    (inCrate : FileDescriptor → Bool) (map : List (String × String))
    (ext : Externals) (fuel : Nat) (file : FileDescriptor)
    (vs : List FileDescriptor) (out : List Emit)
    (h : emitPublicImportsLoop pool inCrate map ext fuel [file] =
      some (Except.ok (vs, out))) (g : FileDescriptor) :
    g ∈ vs ↔ PubReach pool file g := by
  constructor
  · intro hg
    obtain ⟨s, hs, hreach⟩ :=
      loop_visits_sound pool inCrate map ext fuel _ vs out h g hg
    rcases List.mem_singleton.mp hs with rfl
    exact hreach
  · intro hreach
    exact reach_mem_of_closed pool vs
      (loop_visits_closed pool inCrate map ext fuel _ vs out h) file g
      hreach
      (loop_visits_superset pool inCrate map ext fuel _ vs out h file
        (List.mem_singleton.mpr rfl))


/-! ## Claim theorems -/

/-- Claim C1 (amended): for a completed public-import traversal started
at the file under generation, (a) a file is visited iff it is reachable
from the file under generation through a chain of public dependency
edges - reachability is transitive across any number of intermediate
public imports, and only public edges are followed, so private/plain
dependency edges never extend the closure - and (b) the emitted
forwarding declarations are exactly the concatenation, in visit order,
of the per-file blocks (three re-exports per message - canonical, View,
Mut - and one per enum, qualified by the file's external crate
identifier) of the out-of-unit visited files. Amendment: the traversal
keeps no visited set, so an out-of-unit file reachable along several
distinct public-import chains is visited once per chain and contributes
one block per visit, not exactly one block as the claim states. -/
theorem claim_C1_theorem (pool : FilePool)
    (inCrate : FileDescriptor → Bool) (map : List (String × String))
    (ext : Externals) (fuel : Nat) (file g : FileDescriptor)
    (vs : List FileDescriptor) (out : List Emit)
    (hloop : emitPublicImportsLoop pool inCrate map ext fuel [file] =
      some (Except.ok (vs, out))) :
    (g ∈ vs ↔ PubReach pool file g) ∧
    out = (vs.filter (fun f => !inCrate f)).flatMap
      (depBlockOrNothing map ext) :=
  ⟨loop_visits_iff_reach pool inCrate map ext fuel file vs out hloop g,
   loop_output_eq pool inCrate map ext fuel [file] vs out hloop⟩

/-- Claim C1 counterexample: in the diamond fixture the file under
generation a.proto publicly imports the in-unit files d1.proto and
d2.proto, each of which publicly imports the out-of-unit file e.proto
holding one message M. The claim requires exactly three re-export
statements for M (canonical, View, Mut), hence exactly one canonical
re-export; the generated bindings contain the canonical re-export of M
twice (one full block per public-import chain), and the pass still
reports success. -/
theorem claim_C1_counterexample :
    countPubUse "ext::M" (Generate c1Inputs fA 10).rsEventsD = 2 ∧
    (Generate c1Inputs fA 10).isOk = true := ⟨rfl, rfl⟩

/-- Claim C1 witness: the amended claim instantiated on the chain
fixture (top.proto publicly imports mid.proto, which publicly imports
the out-of-unit x2.proto defining message XM and enum XE). -/
theorem claim_C1_witness :
    (fX ∈ [fTop, fMid, fX] ↔ PubReach chainPool fTop fX) ∧
    [Emit.pubUse "xcrate::XM", Emit.pubUse "xcrate::XMView",
     Emit.pubUse "xcrate::XMMut", Emit.pubUse "xcrate::XE"] =
      ([fTop, fMid, fX].filter
        (fun f => !isFileInCurrentCrate chainUnit f)).flatMap
        (depBlockOrNothing chainMap testExt) :=
  claim_C1_theorem chainPool (isFileInCurrentCrate chainUnit) chainMap
    testExt 10 fTop fX [fTop, fMid, fX]
    [Emit.pubUse "xcrate::XM", Emit.pubUse "xcrate::XMView",
     Emit.pubUse "xcrate::XMMut", Emit.pubUse "xcrate::XE"]
    (by rfl)

/-- Claim C2 is false of the code: the worklist of EmitPublicImports
keeps no visited set. First conjunct (non-termination): on the smallest
public-import cycle the loop runs forever - for every fuel bound the
model reports the loop still running. Second conjunct (duplicate
emission): in a diamond, the out-of-unit file z.proto, reachable along
two distinct public-import paths, is visited twice, so its forwarding
declarations are emitted twice, not at most once. -/
theorem claim_C2_theorem :
    (∀ fuel : Nat,
      emitPublicImportsLoop cycPool (isFileInCurrentCrate [cycFile]) []
        testExt fuel [cycFile] = none) ∧
    (loopVisits (emitPublicImportsLoop diamondPool
        (isFileInCurrentCrate diamondUnit) diamondMap testExt 10
        [diamondTop])).countP (fun f => f.name == "z.proto") = 2 := by
  constructor
  · intro fuel
    induction fuel with
    | zero => rfl
    | succ n ih =>
      rw [emitPublicImportsLoop]
      have hstack : (publicDeps cycPool cycFile).reverse ++
          ([] : List FileDescriptor) = [cycFile] := rfl
      rw [hstack, ih]
      rfl
  · rfl

/-- Claim C3: generating a file inside the current compilation unit
never emits a forwarding declaration for a file that is also inside the
same unit, however that file is reached during the public-import
traversal: the emitted forwarding declarations decompose over exactly
the out-of-unit visited files, and an in-unit file is never among
them. -/
theorem claim_C3_theorem (pool : FilePool)
    (files : List FileDescriptor) (map : List (String × String))
    (ext : Externals) (fuel : Nat) (file g : FileDescriptor)
    (vs : List FileDescriptor) (out : List Emit)
    (hfile : isFileInCurrentCrate files file = true)
    (hg : isFileInCurrentCrate files g = true)
    (hloop : emitPublicImportsLoop pool (isFileInCurrentCrate files) map
        ext fuel [file] = some (Except.ok (vs, out))) :
    out = (vs.filter (fun f => !isFileInCurrentCrate files f)).flatMap
      (depBlockOrNothing map ext) ∧
    g ∉ vs.filter (fun f => !isFileInCurrentCrate files f) := by
  refine ⟨loop_output_eq pool (isFileInCurrentCrate files) map ext fuel
    [file] vs out hloop, ?_⟩
  intro hmem
  have hfilt := (List.mem_filter.mp hmem).2
  rw [hg] at hfilt
  simp at hfilt

/-- Claim C3 witness: the chain fixture, generating the in-unit
top.proto; the in-unit mid.proto is publicly visited by the traversal
but contributes no forwarding declarations. -/
theorem claim_C3_witness :
    [Emit.pubUse "xcrate::XM", Emit.pubUse "xcrate::XMView",
     Emit.pubUse "xcrate::XMMut", Emit.pubUse "xcrate::XE"] =
      ([fTop, fMid, fX].filter
        (fun f => !isFileInCurrentCrate chainUnit f)).flatMap
        (depBlockOrNothing chainMap testExt) ∧
    fMid ∉ [fTop, fMid, fX].filter
      (fun f => !isFileInCurrentCrate chainUnit f) :=
  claim_C3_theorem chainPool chainUnit chainMap testExt 10 fTop fMid
    [fTop, fMid, fX]
    [Emit.pubUse "xcrate::XM", Emit.pubUse "xcrate::XMView",
     Emit.pubUse "xcrate::XMMut", Emit.pubUse "xcrate::XE"]
    (by rfl) (by rfl) (by rfl)


/-- Claim C4: submodule declarations are emitted iff the file under
generation is the compilation unit's primary file (the first element of
the unit), and then the submodule-declaration events of the generated
bindings are exactly one path-attributed inclusion directive plus one
wildcard re-export per other (non-primary) file of the unit, using the
relative path computed between the primary file's generated module path
and that non-primary file's generated module path. -/
theorem claim_C4_theorem (inp : GenInputs) (file : FileDescriptor)
    (fuel : Nat) (opts : Options) (map : List (String × String))
    (primary : FileDescriptor) (rest : List FileDescriptor)
    (h1 : inp.optsResult = Except.ok opts)
    (h2 : inp.crateMapResult = Except.ok map)
    (h3 : inp.filesInCrate = primary :: rest)
    (hok : (Generate inp file fuel).isOk = true) :
    (Generate inp file fuel).rsEventsD.filter isSubmoduleDecl =
      if file.name = primary.name then
        declareSubmodulesForNonPrimarySrcs inp.ext primary rest
      else [] := by
  obtain ⟨vs, pub, hloop⟩ :=
    generate_isOk_loop inp file fuel opts map primary rest h1 h2 h3 hok
  rw [generate_eq_ok inp file fuel opts map primary rest vs pub h1 h2 h3
    hloop]
  simp only [GenResult.rsEventsD]
  rw [List.filter_append, List.filter_append, List.filter_append]
  have hpub : pub.filter isSubmoduleDecl = [] := by
    rw [loop_output_eq inp.pool (isFileInCurrentCrate (primary :: rest))
      map inp.ext fuel [file] vs pub hloop]
    refine List.filter_eq_nil_iff.mpr ?_
    intro e he
    obtain ⟨f2, _, hef⟩ := List.mem_flatMap.mp he
    simp [depBlockOrNothing_no_submod map inp.ext f2 e hef]
  have hmsg : (file.messageTypes.map Emit.msgBinding).filter
      isSubmoduleDecl = [] := by
    refine List.filter_eq_nil_iff.mpr ?_
    intro e he
    obtain ⟨m, _, rfl⟩ := List.mem_map.mp he
    simp [isSubmoduleDecl]
  have henum : (file.enumTypes.map Emit.enumBinding).filter
      isSubmoduleDecl = [] := by
    refine List.filter_eq_nil_iff.mpr ?_
    intro e he
    obtain ⟨m, _, rfl⟩ := List.mem_map.mp he
    simp [isSubmoduleDecl]
  rw [hpub, hmsg, henum]
  by_cases hp : file.name = primary.name
  · rw [if_pos hp, List.filter_eq_self.mpr (fun e he => by
      simp [declare_all_submod inp.ext primary rest e he])]
    simp
  · rw [if_neg hp]
    simp

/-- Claim C4 witness: the two-file unit fixture, generating the primary
file p2.proto with non-primary file b.proto. -/
theorem claim_C4_witness :
    (Generate c4Inputs fP 10).rsEventsD.filter isSubmoduleDecl =
      if fP.name = fP.name then
        declareSubmodulesForNonPrimarySrcs testExt fP [fB]
      else [] :=
  claim_C4_theorem c4Inputs fP 10 upbOpts [] fP [fB] rfl rfl rfl (by rfl)

/-- Claim C5 (amended): if the public-import traversal dies in the
crate-mapping lookup (an out-of-unit publicly reachable file with no
mapping entry), the whole generation of the file fails by a fatal abort
and no output is committed; but the failure is not signaled to the
driver through the generator's bool/error-string interface - that
interface reports failure only for the two early checks (options parse
and crate-mapping load). The lookup abort is the spec-modelled fatal
LookupError of the external GetCrateName. -/
theorem claim_C5_theorem (inp : GenInputs) (file : FileDescriptor)
    (fuel : Nat) (opts : Options) (map : List (String × String))
    (primary : FileDescriptor) (rest : List FileDescriptor) (e : String)
    (h1 : inp.optsResult = Except.ok opts)
    (h2 : inp.crateMapResult = Except.ok map)
    (h3 : inp.filesInCrate = primary :: rest)
    (hloop : emitPublicImportsLoop inp.pool
        (isFileInCurrentCrate (primary :: rest)) map inp.ext fuel [file] =
      some (Except.error e)) :
    Generate inp file fuel = GenResult.abort e ∧
    (Generate inp file fuel).isFail = false ∧
    (Generate inp file fuel).isOk = false := by
  have hgen : Generate inp file fuel = GenResult.abort e := by
    unfold Generate
    simp only [h1, h2, h3, hloop]
  exact ⟨hgen, by rw [hgen]; rfl, by rw [hgen]; rfl⟩

/-- Claim C5 counterexample: at a lookup-miss input (needy2.proto
publicly imports the out-of-unit w.proto, absent from the crate
mapping) the failure is a fatal abort, not a failure signaled to the
driver: the generator's bool/error interface is never engaged
(isFail = false), contradicting the claim's "(a failure is signaled to
the driver)". -/
theorem claim_C5_counterexample :
    Generate c5bInputs fNeedy2 10 =
      GenResult.abort "Path w.proto not found in crate mapping." ∧
    (Generate c5bInputs fNeedy2 10).isFail = false := ⟨rfl, rfl⟩

/-- Claim C5 witness: the amended claim instantiated at the
miss.proto fixture. -/
theorem claim_C5_witness :
    Generate c5Inputs fNeedy 10 =
      GenResult.abort "Path miss.proto not found in crate mapping." ∧
    (Generate c5Inputs fNeedy 10).isFail = false ∧
    (Generate c5Inputs fNeedy 10).isOk = false :=
  claim_C5_theorem c5Inputs fNeedy 10 upbOpts [] fNeedy []
    "Path miss.proto not found in crate mapping." rfl rfl rfl (by rfl)

/-- Claim C6: in cpp (native-interop) kernel mode, a completed pass
opens the thunks output and its stream is exactly: the header block
(the file's own native header, then each plain dependency's native
header in order - skipping a dependency recognized as a known feature
proto when the strip option is set - then the fixed support headers),
followed by the per-type content; and the per-type marker comments are
exactly one marker per message then one per enum, in declaration order,
messages first. -/
theorem claim_C6_theorem (inp : GenInputs) (file : FileDescriptor)
    (fuel : Nat) (opts : Options) (map : List (String × String))
    (primary : FileDescriptor) (rest : List FileDescriptor)
    (h1 : inp.optsResult = Except.ok opts)
    (hcpp : opts.is_cpp = true)
    (h2 : inp.crateMapResult = Except.ok map)
    (h3 : inp.filesInCrate = primary :: rest)
    (hok : (Generate inp file fuel).isOk = true) :
    (Generate inp file fuel).thunksFileD =
      some (inp.ext.getThunkCcFile file.name) ∧
    (Generate inp file fuel).thunksEventsD =
      thunksHeaderBlock opts inp.ext file ++
      file.messageTypes.flatMap (fun m =>
        [Emit.thunkMarker m, Emit.msgThunks m]) ++
      file.enumTypes.map Emit.thunkMarker ∧
    (Generate inp file fuel).thunksEventsD.filter isThunkMarker =
      file.messageTypes.map Emit.thunkMarker ++
      file.enumTypes.map Emit.thunkMarker := by
  obtain ⟨vs, pub, hloop⟩ :=
    generate_isOk_loop inp file fuel opts map primary rest h1 h2 h3 hok
  have hTE : (Generate inp file fuel).thunksEventsD =
      thunksHeaderBlock opts inp.ext file ++
      file.messageTypes.flatMap (fun m =>
        [Emit.thunkMarker m, Emit.msgThunks m]) ++
      file.enumTypes.map Emit.thunkMarker := by
    rw [generate_eq_ok inp file fuel opts map primary rest vs pub h1 h2
      h3 hloop]
    simp [GenResult.thunksEventsD, hcpp]
  refine ⟨?_, hTE, ?_⟩
  · rw [generate_eq_ok inp file fuel opts map primary rest vs pub h1 h2
      h3 hloop]
    simp [GenResult.thunksFileD, hcpp]
  · rw [hTE, List.filter_append, List.filter_append]
    rw [List.filter_eq_nil_iff.mpr (fun e he => by
      simp [thunksHeaderBlock_no_marker opts inp.ext file e he])]
    rw [filter_marker_msgs]
    have henum : (file.enumTypes.map Emit.thunkMarker).filter
        isThunkMarker = file.enumTypes.map Emit.thunkMarker := by
      refine List.filter_eq_self.mpr ?_
      intro e he
      obtain ⟨q, _, rfl⟩ := List.mem_map.mp he
      simp [isThunkMarker]
    rw [henum]
    simp

/-- Claim C6 witness: the cpp fixture c.proto (two messages, one enum,
one ordinary dependency and one feature-only dependency under the strip
option). -/
theorem claim_C6_witness :
    (Generate c6Inputs fCpp 10).thunksFileD =
      some (testExt.getThunkCcFile fCpp.name) ∧
    (Generate c6Inputs fCpp 10).thunksEventsD =
      thunksHeaderBlock cppStripOpts testExt fCpp ++
      fCpp.messageTypes.flatMap (fun m =>
        [Emit.thunkMarker m, Emit.msgThunks m]) ++
      fCpp.enumTypes.map Emit.thunkMarker ∧
    (Generate c6Inputs fCpp 10).thunksEventsD.filter isThunkMarker =
      fCpp.messageTypes.map Emit.thunkMarker ++
      fCpp.enumTypes.map Emit.thunkMarker :=
  claim_C6_theorem c6Inputs fCpp 10 cppStripOpts [] fCpp [] rfl rfl rfl
    rfl (by rfl)

/-- Claim C7: in pure-target (non-cpp) kernel mode, a completed pass
opens no thunks output and writes no thunks events: the only output of
the pass is the single bindings stream. -/
theorem claim_C7_theorem (inp : GenInputs) (file : FileDescriptor)
    (fuel : Nat) (opts : Options) (map : List (String × String))
    (primary : FileDescriptor) (rest : List FileDescriptor)
    (h1 : inp.optsResult = Except.ok opts)
    (hup : opts.is_cpp = false)
    (h2 : inp.crateMapResult = Except.ok map)
    (h3 : inp.filesInCrate = primary :: rest)
    (hok : (Generate inp file fuel).isOk = true) :
    (Generate inp file fuel).thunksFileD = none ∧
    (Generate inp file fuel).thunksEventsD = [] := by
  obtain ⟨vs, pub, hloop⟩ :=
    generate_isOk_loop inp file fuel opts map primary rest h1 h2 h3 hok
  rw [generate_eq_ok inp file fuel opts map primary rest vs pub h1 h2 h3
    hloop]
  constructor
  · simp [GenResult.thunksFileD, hup]
  · simp [GenResult.thunksEventsD, hup]

/-- Claim C7 witness: the upb-mode diamond fixture. -/
theorem claim_C7_witness :
    (Generate c1Inputs fA 10).thunksFileD = none ∧
    (Generate c1Inputs fA 10).thunksEventsD = [] :=
  claim_C7_theorem c1Inputs fA 10 upbOpts c1Map fA [fD1, fD2] rfl rfl
    rfl rfl (by rfl)

/-- Claim C8: when the options string does not parse, Generate signals
failure through the bool/error interface with the parse error surfaced
verbatim, and commits no output (the failure precedes the opening of
any output stream: it is the first branch of Generate). -/
theorem claim_C8_theorem (inp : GenInputs) (file : FileDescriptor)
    (fuel : Nat) (e : String)
    (h : inp.optsResult = Except.error e) :
    Generate inp file fuel = GenResult.fail e ∧
    (Generate inp file fuel).isOk = false := by
  have hgen : Generate inp file fuel = GenResult.fail e := by
    unfold Generate
    simp only [h]
  exact ⟨hgen, by rw [hgen]; rfl⟩

/-- Claim C8 witness: a concrete unparsable options string. -/
theorem claim_C8_witness :
    Generate badOptsInputs fP 10 =
      GenResult.fail "bad rust generator option: qqq" ∧
    (Generate badOptsInputs fP 10).isOk = false :=
  claim_C8_theorem badOptsInputs fP 10 "bad rust generator option: qqq"
    rfl


/-- Claim C9 (amended): the submodule-declaration step performs no
collision detection on submodule identifiers. If two (or more)
non-primary files of the unit resolve to the same submodule identifier,
generating the primary file still completes successfully and the
generated bindings contain one submodule inclusion directive with that
same identifier per such file - two or more declarations with one
identifier, silently emitted; uniqueness is delegated entirely to the
external naming resolver. -/
theorem claim_C9_theorem (inp : GenInputs) (fuel : Nat) (opts : Options)
    (map : List (String × String)) (primary : FileDescriptor)
    (rest vs : List FileDescriptor) (pub : List Emit) (n : String)
    (h1 : inp.optsResult = Except.ok opts)
    (h2 : inp.crateMapResult = Except.ok map)
    (h3 : inp.filesInCrate = primary :: rest)
    (hloop : emitPublicImportsLoop inp.pool
        (isFileInCurrentCrate (primary :: rest)) map inp.ext fuel
        [primary] = some (Except.ok (vs, pub)))
    (hcol : 2 ≤ rest.countP
        (fun f => inp.ext.rustInternalModuleName f.name == n)) :
    (Generate inp primary fuel).isOk = true ∧
    2 ≤ (Generate inp primary fuel).rsEventsD.countP
      (isSubmodNamed n) := by
  rw [generate_eq_ok inp primary fuel opts map primary rest vs pub h1 h2
    h3 hloop]
  refine ⟨rfl, ?_⟩
  simp only [GenResult.rsEventsD]
  rw [if_pos trivial]
  rw [List.countP_append, List.countP_append, List.countP_append]
  have hdecl := countP_submodNamed_declare inp.ext primary n rest
  omega

/-- Claim C9 counterexample: in the collision fixture the two
non-primary files n1.proto and n2.proto both resolve to the submodule
identifier m; generation of the primary file succeeds (no failure is
detected or reported) and the bindings contain two submodule
declarations with the identifier m - exactly the silent double emission
the claim rules out. -/
theorem claim_C9_counterexample :
    (Generate c9Inputs fPrim 10).isOk = true ∧
    (Generate c9Inputs fPrim 10).rsEventsD.countP (isSubmodNamed "m") =
      2 := ⟨rfl, rfl⟩

/-- Claim C9 witness: the amended claim instantiated on the collision
fixture. -/
theorem claim_C9_witness :
    (Generate c9Inputs fPrim 10).isOk = true ∧
    2 ≤ (Generate c9Inputs fPrim 10).rsEventsD.countP
      (isSubmodNamed "m") :=
  claim_C9_theorem c9Inputs 10 upbOpts [] fPrim [fN1, fN2] [fPrim] []
    "m" rfl rfl rfl (by rfl) (by decide)

/-- Claim C10 (amended): once the options string has parsed and the
crate mapping has loaded, no later step of the pass can signal failure
through the bool/error-string interface: those two early checks are the
only false-returning branches. (The claim's further assertion that
Generate then always returns true is false: a crate-mapping lookup miss
during the traversal aborts fatally without returning, and a cyclic
public-import graph keeps the traversal from terminating.) -/
theorem claim_C10_theorem (inp : GenInputs) (file : FileDescriptor)
    (fuel : Nat) (opts : Options) (map : List (String × String))
    (h1 : inp.optsResult = Except.ok opts)
    (h2 : inp.crateMapResult = Except.ok map) :
    (Generate inp file fuel).isFail = false := by
  unfold Generate
  simp only [h1, h2]
  rcases hf : inp.filesInCrate with _ | ⟨primary, rest⟩
  · rfl
  · rcases hloop : emitPublicImportsLoop inp.pool
        (isFileInCurrentCrate (primary :: rest)) map inp.ext fuel [file]
      with _ | r
    · simp only [hloop]
      rfl
    · rcases r with e | ⟨vs, pub⟩
      · simp only [hloop]
        rfl
      · simp only [hloop]
        rfl

/-- Claim C10 counterexample: valid options and a successfully loaded
(empty) crate mapping, yet Generate does not return true: the traversal
reaches the out-of-unit v.proto, whose crate-mapping lookup aborts
fatally (no result is returned through the bool/error interface in
either direction). -/
theorem claim_C10_counterexample :
    c10Inputs.optsResult = Except.ok upbOpts ∧
    c10Inputs.crateMapResult = Except.ok [] ∧
    (Generate c10Inputs fNeedy3 10).isOk = false ∧
    (Generate c10Inputs fNeedy3 10).isFail = false :=
  ⟨rfl, rfl, rfl, rfl⟩

/-- Claim C10 witness: the amended claim instantiated on the two-file
unit fixture, generating the non-primary file. -/
theorem claim_C10_witness :
    (Generate c4Inputs fB 10).isFail = false :=
  claim_C10_theorem c4Inputs fB 10 upbOpts [] rfl rfl

end RustGen
